import Mathlib

/-!
# Verification of the voice-activity detection core

Shallow embedding of the voice-activity segmentation engine
(`src/voice_detector.py`) and of the audio capture queue
(`src/audio_input.py`).  Wall-clock times and normalized energies are
modelled as exact rationals.  The per-frame body of
`VoiceDetector._listen_for_phrase` is embedded as a step function on an
explicit segmenter state; the detection loop is a fold of that step over
the finite sequence of frames actually pulled from the channel (a `None`
returned on a poll timeout is skipped by the loop with `continue`, so
only received frames are modelled).
-/

namespace VoiceDetect

/-! ## The phrase segmenter (`VoiceDetector._listen_for_phrase`) -/

/-- A classified audio frame as seen by the segmenter: the wall-clock
time at which the loop processes it (`current_time = time.time()`) and
its normalized energy (the value `_calculate_energy` returns for it). -/
structure Chunk where
  time : ℚ
  energy : ℚ
deriving Repr, DecidableEq

/-- The detection parameters of `VoiceDetector.__init__`. -/
structure VDConfig where
  energy_threshold : ℚ
  pause_threshold : ℚ
  phrase_threshold : ℚ
  max_phrase_time : ℚ
deriving Repr, DecidableEq

/-- The mutable loop state of `_listen_for_phrase`: `is_speaking`,
`speech_start_time` and `last_speech_time` (both `None` while idle) and
the accumulated `collected_chunks`. -/
structure SegState where
  is_speaking : Bool
  speech_start_time : Option ℚ
  last_speech_time : Option ℚ
  collected_chunks : List Chunk
deriving Repr, DecidableEq

/-- The initial loop state (`voice_detector.py` lines 92-95). -/
def initSeg : SegState :=
  { is_speaking := false
    speech_start_time := none
    last_speech_time := none
    collected_chunks := [] }

/-- Python truthiness of the float-or-`None` variable
`speech_start_time`, as tested by
`if is_speaking and speech_start_time and ...`: both `None` and `0.0`
are falsy. -/
def pyTruthy : Option ℚ → Bool
  | none => false
  | some x => decide (x ≠ 0)

/-- The speech-detection / pause-close block of the loop body
(`voice_detector.py` lines 111-154).  Returns the updated state and the
utterance buffers handed to the callback in this block (`[]` or one
buffer).  Where the code reads `last_speech_time` or `speech_start_time`
these are always set (`some`) on reachable speaking states (see
`stepFrame_speaking_invariant`); the embedding reads them with
`Option.getD 0`. -/
def speechStep (cfg : VDConfig) (s : SegState) (c : Chunk) :
    SegState × List (List Chunk) :=
  if cfg.energy_threshold < c.energy then
    -- `energy > self.energy_threshold`: open or continue the session
    ({ is_speaking := true
       speech_start_time :=
         if s.is_speaking then s.speech_start_time else some c.time
       last_speech_time := some c.time
       collected_chunks := s.collected_chunks ++ [c] },
     ([] : List (List Chunk)))
  else if s.is_speaking then
    -- silence inside an open session: the frame is still appended
    if cfg.pause_threshold < c.time - (s.last_speech_time.getD 0) then
      -- pause-close; accept iff the speech span reached `phrase_threshold`
      ({ is_speaking := false
         speech_start_time := none
         last_speech_time := none
         collected_chunks := [] },
       if cfg.phrase_threshold ≤
           (s.last_speech_time.getD 0) - (s.speech_start_time.getD 0) then
         if s.collected_chunks ++ [c] ≠ [] then [s.collected_chunks ++ [c]]
         else []
       else [])
    else
      ({ s with collected_chunks := s.collected_chunks ++ [c] }, [])
  else (s, [])

/-- The forced max-recording-time cutoff that follows in the same loop
iteration (`voice_detector.py` lines 156-172), applied to the outcome of
`speechStep`.  Note the Python truthiness test on `speech_start_time`
and that this path has no `phrase_threshold` filter. -/
def cutoffStep (cfg : VDConfig) (t : ℚ) (p : SegState × List (List Chunk)) :
    SegState × List (List Chunk) :=
  if p.1.is_speaking ∧ pyTruthy p.1.speech_start_time = true ∧
      cfg.max_phrase_time < t - (p.1.speech_start_time.getD 0) then
    ({ is_speaking := false
       speech_start_time := none
       last_speech_time := none
       collected_chunks := [] },
     p.2 ++ (if p.1.collected_chunks ≠ [] then [p.1.collected_chunks] else []))
  else p

/-- One full iteration of the `while self.is_listening` body of
`_listen_for_phrase` for a frame that was actually received. -/
def stepFrame (cfg : VDConfig) (s : SegState) (c : Chunk) :
    SegState × List (List Chunk) :=
  cutoffStep cfg c.time (speechStep cfg s c)

/-- Run the segmenter over a finite sequence of received frames,
collecting every utterance buffer emitted along the way. -/
def runSeg (cfg : VDConfig) : SegState → List Chunk →
    SegState × List (List Chunk)
  | s, [] => (s, [])
  | s, c :: cs =>
    ((runSeg cfg (stepFrame cfg s c).1 cs).1,
     (stepFrame cfg s c).2 ++ (runSeg cfg (stepFrame cfg s c).1 cs).2)

/-- The default parameters of `VoiceDetector.__init__`:
`energy_threshold=0.05`, `pause_threshold=1.0`, `phrase_threshold=0.3`,
`max_phrase_time=10.0`. -/
def defaultConfig : VDConfig :=
  { energy_threshold := 0.05
    pause_threshold := 1
    phrase_threshold := 0.3
    max_phrase_time := 10 }

/-- The end-to-end example input: 0.1 s frames at exact frame
boundaries, 6 frames of energy 0.8 followed by 11 frames of energy 0. -/
def exampleInput : List Chunk :=
  [⟨0.1, 0.8⟩, ⟨0.2, 0.8⟩, ⟨0.3, 0.8⟩, ⟨0.4, 0.8⟩, ⟨0.5, 0.8⟩, ⟨0.6, 0.8⟩,
   ⟨0.7, 0⟩, ⟨0.8, 0⟩, ⟨0.9, 0⟩, ⟨1.0, 0⟩, ⟨1.1, 0⟩, ⟨1.2, 0⟩, ⟨1.3, 0⟩,
   ⟨1.4, 0⟩, ⟨1.5, 0⟩, ⟨1.6, 0⟩, ⟨1.7, 0⟩]

/-- A configuration (admissible to `__init__`, which constrains none of
its parameters) whose pause threshold exceeds its maximum recording
time, exposing the unfiltered forced-cutoff path. -/
def cutoffConfig : VDConfig :=
  { energy_threshold := 0.05
    pause_threshold := 20
    phrase_threshold := 0.3
    max_phrase_time := 10 }

/-! ## The detection loop with its callback (`_listen_for_phrase`, lines 99-176)

The loop body is wrapped in `try ... finally self.audio_input.stop_recording()`
with no `except` clause, so an exception raised by the registered
callback propagates out of the `while` loop.  A callback is modelled as
a function returning `none` on normal return and `some msg` when it
raises; `runLoop` returns the final state, the buffers whose callback
invocation returned normally, and the escaped exception, if any. -/

/-- Invoke the callback on each emitted buffer in order; an exception
aborts the remaining invocations and escapes. -/
def deliver (cb : List Chunk → Option String) :
    List (List Chunk) → List (List Chunk) × Option String
  | [] => ([], none)
  | b :: bs =>
    match cb b with
    | some e => ([], some e)
    | none => ((deliver cb bs).1.cons b, (deliver cb bs).2)

/-- The detection loop over a finite sequence of received frames: each
frame is fed to `stepFrame` and any emitted buffer is passed to the
callback; a callback exception escapes the loop, leaving the remaining
frames unprocessed. -/
def runLoop (cfg : VDConfig) (cb : List Chunk → Option String) :
    SegState → List Chunk → SegState × List (List Chunk) × Option String
  | s, [] => (s, [], none)
  | s, c :: cs =>
    match (deliver cb (stepFrame cfg s c).2).2 with
    | some e => ((stepFrame cfg s c).1, (deliver cb (stepFrame cfg s c).2).1, some e)
    | none =>
      ((runLoop cfg cb (stepFrame cfg s c).1 cs).1,
       (deliver cb (stepFrame cfg s c).2).1 ++
         (runLoop cfg cb (stepFrame cfg s c).1 cs).2.1,
       (runLoop cfg cb (stepFrame cfg s c).1 cs).2.2)

/-- A callback that always raises. -/
def cbRaise : List Chunk → Option String := fun _ => some "callback failed"

/-- A callback that always returns normally. -/
def cbOk : List Chunk → Option String := fun _ => none

/-- An input containing two complete phrases under `defaultConfig`:
speech at 0.1 s and 0.5 s closed by silence at 1.6 s, then speech at
2.0 s and 2.4 s closed by silence at 3.6 s. -/
def twoPhraseInput : List Chunk :=
  [⟨0.1, 0.8⟩, ⟨0.5, 0.8⟩, ⟨1.6, 0⟩, ⟨2.0, 0.8⟩, ⟨2.4, 0.8⟩, ⟨3.6, 0⟩]

/-! ## The energy classifier (`VoiceDetector._calculate_energy`) -/

/-- A raw audio frame: either integer samples (the default
`dtype='int16'` of `AudioInput`) or floating samples pre-normalized to
[-1, 1]. -/
inductive AudioChunk where
  | intChunk (samples : List ℤ)
  | floatChunk (samples : List ℚ)
deriving Repr, DecidableEq

/-- `np.iinfo(np.int16).max`, the divisor used to normalize integer
samples.  The most negative int16 sample is `-32768`, whose magnitude
exceeds this divisor. -/
def int16_max : ℚ := 32767

/-- `VoiceDetector._calculate_energy` (lines 50-76): `0` for an absent
(`None`) or empty frame; for integer frames the mean of
`|sample| / iinfo.max`; for floating frames the mean of `|sample|`. -/
def calculate_energy : Option AudioChunk → ℚ
  | none => 0
  | some (.intChunk ss) =>
    if ss.length = 0 then 0
    else (ss.map (fun v : ℤ => (|v| : ℚ) / int16_max)).sum / ss.length
  | some (.floatChunk ss) =>
    if ss.length = 0 then 0
    else (ss.map (fun v : ℚ => |v|)).sum / ss.length

/-- Range validity of a raw frame: int16 samples lie in
[-32768, 32767]; floating samples are pre-normalized to [-1, 1]. -/
def validChunk : AudioChunk → Prop
  | .intChunk ss => ∀ v ∈ ss, -32768 ≤ v ∧ v ≤ 32767
  | .floatChunk ss => ∀ v ∈ ss, -1 ≤ v ∧ v ≤ 1

/-- An integer frame avoiding the most negative int16 sample `-32768`
(vacuous for floating frames). -/
def noMinSample : AudioChunk → Prop
  | .intChunk ss => ∀ v ∈ ss, -32767 ≤ v
  | .floatChunk _ => True

/-! ## Ambient calibration (`VoiceDetector.adjust_for_ambient_noise`) -/

/-- The hard upper bound `0.2` applied to the calibrated threshold
(`min(0.2, avg_energy * 1.1)`, line 238). -/
def threshold_cap : ℚ := 0.2

/-- The default of the `duration` parameter of
`adjust_for_ambient_noise` (line 212): `duration=1.0`. -/
def default_calibration_duration : ℚ := 1

/-- `VoiceDetector.adjust_for_ambient_noise` (lines 212-241) on the
frames received during the window: the local list `chunks` accumulates
`_calculate_energy(chunk)` for every non-`None` chunk; if any were
received the threshold becomes `min(0.2, mean(chunks) * 1.1)` and the
run succeeds, otherwise the threshold is unchanged and failure is
reported (a printed message, no exception).  Returns the new threshold
and the success flag. -/
def adjust_for_ambient_noise (prev_threshold : ℚ)
    (received : List AudioChunk) : ℚ × Bool :=
  let chunks := received.map (fun c => calculate_energy (some c))
  if chunks ≠ [] then
    (min threshold_cap (chunks.sum / chunks.length * 1.1), true)
  else
    (prev_threshold, false)

/-! ## Detection lifecycle (`VoiceDetector.start_detection`, lines 178-197)

`start_detection` checks `is_listening`, sets it, and spawns the
detection thread; the thread's target `_listen_for_phrase` only then
calls `self.audio_input.start_recording()` (line 89, before the `try`
block).  A failure of the audio source therefore raises on the detection
thread after it was spawned, and is invisible to the caller of
`start_detection`, which has already returned `None`. -/

/-- Observable outcome of one call to `start_detection`, given whether
the audio source's start will fail when attempted. -/
structure StartResult where
  already_running : Bool
  thread_spawned : Bool
  is_listening_after : Bool
  caller_error : Bool
  thread_error : Bool
deriving Repr, DecidableEq

/-- `VoiceDetector.start_detection`: a no-op when already listening;
otherwise sets `is_listening`, spawns the thread and returns — any
audio-source start failure surfaces later, on the spawned thread. -/
def start_detection (is_listening : Bool) (source_start_fails : Bool) :
    StartResult :=
  if is_listening then
    { already_running := true
      thread_spawned := false
      is_listening_after := is_listening
      caller_error := false
      thread_error := false }
  else
    { already_running := false
      thread_spawned := true
      is_listening_after := true
      caller_error := false
      thread_error := source_start_fails }

/-! ## The audio capture queue (`src/audio_input.py`) -/

/-- The state of an `AudioInput`: the `is_recording` flag and the FIFO
`audio_queue` (head = oldest frame). -/
structure AudioInputState where
  is_recording : Bool
  audio_queue : List AudioChunk
deriving Repr, DecidableEq

/-- `AudioInput.start_recording` (lines 65-88): a no-op when already
recording; otherwise the queue is drained with
`while not empty: get()` before the stream is created and started. -/
def start_recording (s : AudioInputState) : AudioInputState :=
  if s.is_recording then s
  else { is_recording := true, audio_queue := [] }

/-- `AudioInput._audio_callback` (lines 52-63): the device thread pushes
a copy of each captured frame onto the queue. -/
def push_chunk (s : AudioInputState) (c : AudioChunk) : AudioInputState :=
  { s with audio_queue := s.audio_queue ++ [c] }

/-- `AudioInput.get_audio_chunk` (lines 105-122): pop the oldest queued
frame, or `None` on an empty queue (timeout). -/
def get_audio_chunk (s : AudioInputState) : Option AudioChunk × AudioInputState :=
  match s.audio_queue with
  | [] => (none, s)
  | c :: rest => (some c, { s with audio_queue := rest })

/-! ## Helper lemmas -/

/-- A frame that does not exceed the threshold while no session is open
leaves the loop state untouched and emits nothing. -/
lemma stepFrame_idle_of_le (cfg : VDConfig) (s : SegState) (c : Chunk)
    (hspk : s.is_speaking = false)
    (hE : c.energy ≤ cfg.energy_threshold) :
    stepFrame cfg s c = (s, []) := by
  simp [stepFrame, speechStep, cutoffStep, hspk, not_lt.mpr hE]

/-- On reachable states, an open session always has its two timestamps
set; this justifies the `Option.getD 0` reads in `speechStep`. -/
lemma stepFrame_speaking_invariant (cfg : VDConfig) (s : SegState) (c : Chunk)
    (h : s.is_speaking = true →
      s.speech_start_time.isSome ∧ s.last_speech_time.isSome) :
    (stepFrame cfg s c).1.is_speaking = true →
      (stepFrame cfg s c).1.speech_start_time.isSome ∧
      (stepFrame cfg s c).1.last_speech_time.isSome := by
  rcases hs : s.is_speaking with _ | _
  all_goals unfold stepFrame cutoffStep speechStep
  all_goals simp only [hs]
  all_goals repeat' split
  all_goals simp_all

/-- The sum of a list bounded above termwise is at most length times
the bound. -/
lemma list_sum_le_length_mul (l : List ℚ) (B : ℚ) (h : ∀ x ∈ l, x ≤ B) :
    l.sum ≤ l.length * B := by
  induction l with
  | nil => simp
  | cons a t ih =>
    have ha : a ≤ B := h a (List.mem_cons_self a t)
    have ht : t.sum ≤ t.length * B :=
      ih (fun x hx => h x (List.mem_cons_of_mem a hx))
    simp only [List.sum_cons, List.length_cons]
    push_cast
    linarith

/-- The mean of a termwise nonnegative list is nonnegative. -/
lemma mean_nonneg (l : List ℚ) (h : ∀ x ∈ l, 0 ≤ x) :
    0 ≤ l.sum / l.length :=
  div_nonneg (List.sum_nonneg h) (by positivity)

/-- The mean of a list bounded above termwise by a nonnegative bound is
at most that bound (also for the empty list, where the mean is `0/0 = 0`). -/
lemma mean_le (l : List ℚ) (B : ℚ) (hB : 0 ≤ B) (h : ∀ x ∈ l, x ≤ B) :
    l.sum / l.length ≤ B := by
  rcases eq_or_ne l [] with rfl | hne
  · simpa using hB
  · have hlen : (0 : ℚ) < l.length := by
      exact_mod_cast Nat.pos_of_ne_zero (fun h0 => hne (List.length_eq_zero.mp h0))
    exact (div_le_iff₀ hlen).mpr
      (by calc l.sum ≤ l.length * B := list_sum_le_length_mul l B h
            _ = B * l.length := mul_comm _ _)

/-- Pushing frames onto the queue appends them in order. -/
lemma foldl_push_queue (t : AudioInputState) (nf : List AudioChunk) :
    (List.foldl push_chunk t nf).audio_queue = t.audio_queue ++ nf := by
  induction nf generalizing t with
  | nil => simp
  | cons a l ih => simp [List.foldl_cons, push_chunk, ih]

/-! ## Claim theorems -/

set_option maxHeartbeats 1000000 in
set_option maxRecDepth 40000 in
/-- C3 (counterexample): on the end-to-end example input the single
emitted utterance buffer contains 17 frames, not the claimed 16 — the
closing silence frame is appended before the pause check and is part of
the buffer. -/
theorem C3_counterexample :
    (runSeg defaultConfig initSeg exampleInput).2.map List.length = [17] ∧
    (runSeg defaultConfig initSeg exampleInput).2.map List.length ≠ [16] := by
  have h : (runSeg defaultConfig initSeg exampleInput).2.map List.length = [17] := by
    norm_num [runSeg, stepFrame, speechStep, cutoffStep, exampleInput,
      defaultConfig, initSeg, pyTruthy, List.cons_ne_nil]
  exact ⟨h, by rw [h]; simp⟩

set_option maxHeartbeats 1000000 in
set_option maxRecDepth 40000 in
/-- C3 (amended): feeding 6 frames of energy 0.8 then 11 frames of
energy 0 (0.1 s frames at exact frame boundaries) to a segmenter in IDLE
under the defaults emits exactly one phrase of exactly 17 frames (the
6 speech frames plus all 11 silence frames, including the one processed
at the pause-close), and the segmenter is back in IDLE afterwards. -/
theorem C3_one_phrase_seventeen_frames :
    (runSeg defaultConfig initSeg exampleInput).2.map List.length = [17] ∧
    (runSeg defaultConfig initSeg exampleInput).1 = initSeg := by
  norm_num [runSeg, stepFrame, speechStep, cutoffStep, exampleInput,
    defaultConfig, initSeg, pyTruthy, List.cons_ne_nil]

/-- C7: a frame sequence in which every frame's energy is below the
threshold never opens a session and never emits a phrase: the segmenter
stays in its initial state and the emission list is empty. -/
theorem C7_below_threshold_never_emits (cfg : VDConfig) (chunks : List Chunk)
    (h : ∀ c ∈ chunks, c.energy < cfg.energy_threshold) :
    runSeg cfg initSeg chunks = (initSeg, []) := by
  induction chunks with
  | nil => rfl
  | cons c cs ih =>
    have hstep : stepFrame cfg initSeg c = (initSeg, []) :=
      stepFrame_idle_of_le cfg initSeg c rfl
        (le_of_lt (h c (List.mem_cons_self c cs)))
    have ih' : runSeg cfg initSeg cs = (initSeg, []) :=
      ih (fun c' hc' => h c' (List.mem_cons_of_mem c hc'))
    simp [runSeg, hstep, ih']

/-- Witness for C7 at a concrete silent input. -/
theorem C7_witness :
    (∀ c ∈ [(⟨0.1, 0⟩ : Chunk), ⟨0.2, 0.01⟩, ⟨0.3, 0.04⟩],
      c.energy < defaultConfig.energy_threshold) ∧
    runSeg defaultConfig initSeg [⟨0.1, 0⟩, ⟨0.2, 0.01⟩, ⟨0.3, 0.04⟩] =
      (initSeg, []) := by
  have h : ∀ c ∈ [(⟨0.1, 0⟩ : Chunk), ⟨0.2, 0.01⟩, ⟨0.3, 0.04⟩],
      c.energy < defaultConfig.energy_threshold := by
    intro c hc
    fin_cases hc <;> norm_num [defaultConfig]
  exact ⟨h, C7_below_threshold_never_emits defaultConfig _ h⟩

/-- C9: while no session is open, a frame whose energy does not exceed
the threshold leaves every piece of segmenter state unchanged and emits
nothing — regardless of the remaining state fields. -/
theorem C9_idle_frame_noop (cfg : VDConfig) (s : SegState) (c : Chunk)
    (hspk : s.is_speaking = false)
    (hE : c.energy ≤ cfg.energy_threshold) :
    stepFrame cfg s c = (s, []) :=
  stepFrame_idle_of_le cfg s c hspk hE

/-- Witness for C9 at a concrete idle state and silent frame. -/
theorem C9_witness :
    (⟨false, some 5, none, [⟨1, 1⟩]⟩ : SegState).is_speaking = false ∧
    (⟨2, 0.05⟩ : Chunk).energy ≤ defaultConfig.energy_threshold ∧
    stepFrame defaultConfig ⟨false, some 5, none, [⟨1, 1⟩]⟩ ⟨2, 0.05⟩ =
      (⟨false, some 5, none, [⟨1, 1⟩]⟩, []) := by
  refine ⟨rfl, by norm_num [defaultConfig], ?_⟩
  exact C9_idle_frame_noop defaultConfig _ _ rfl (by norm_num [defaultConfig])

/-- C8 (counterexample): the configuration surface defaults are not as
claimed — the calibration window default (`adjust_for_ambient_noise`'s
`duration` parameter) is 1.0 s, not 2.0 s. -/
theorem C8_counterexample :
    ¬ (defaultConfig.energy_threshold = 0.05 ∧
       defaultConfig.pause_threshold = 1 ∧
       defaultConfig.phrase_threshold = 0.3 ∧
       defaultConfig.max_phrase_time = 10 ∧
       default_calibration_duration = 2 ∧
       threshold_cap = 0.2) := by
  intro h
  have h2 := h.2.2.2.2.1
  norm_num [default_calibration_duration] at h2

/-- C8 (amended): the defaults are `energyThreshold` 0.05,
`pauseThreshold` 1.0 s, `phraseThreshold` 0.3 s, `maxPhraseTime` 10.0 s,
calibration window 1.0 s, and threshold cap 0.2. -/
theorem C8_default_values :
    defaultConfig.energy_threshold = 0.05 ∧
    defaultConfig.pause_threshold = 1 ∧
    defaultConfig.phrase_threshold = 0.3 ∧
    defaultConfig.max_phrase_time = 10 ∧
    default_calibration_duration = 1 ∧
    threshold_cap = 0.2 :=
  ⟨rfl, rfl, rfl, rfl, rfl, rfl⟩

/-- C6 (counterexample): with the audio source set to fail on start, the
detection thread is spawned anyway, the caller of `start_detection` sees
no error, and the failure surfaces on the spawned thread. -/
theorem C6_counterexample :
    (start_detection false true).thread_spawned = true ∧
    (start_detection false true).caller_error = false ∧
    (start_detection false true).thread_error = true := by
  decide

/-- C6 (amended): when not already listening, `start_detection` always
spawns the detection-loop thread and reports no failure to its caller;
an audio-source start failure raises later, on the spawned thread
(whose `_listen_for_phrase` calls `start_recording` before its `try`
block), leaving `is_listening` set. -/
theorem C6_failure_invisible_to_caller :
    ∀ source_start_fails : Bool,
      (start_detection false source_start_fails).thread_spawned = true ∧
      (start_detection false source_start_fails).caller_error = false ∧
      (start_detection false source_start_fails).is_listening_after = true ∧
      (start_detection false source_start_fails).thread_error =
        source_start_fails := by
  decide

/-- C10: `start_recording` on a non-recording `AudioInput` drains the
queue to empty before the stream starts, so a subsequent
`get_audio_chunk` can only return frames pushed after the restart: the
immediate poll yields `None`, and after any sequence of new pushes the
queue holds exactly those new frames. -/
theorem C10_restart_drains_queue (s : AudioInputState)
    (h : s.is_recording = false) :
    (start_recording s).audio_queue = [] ∧
    (get_audio_chunk (start_recording s)).1 = none ∧
    ∀ nf : List AudioChunk,
      (List.foldl push_chunk (start_recording s) nf).audio_queue = nf := by
  have hq : (start_recording s).audio_queue = [] := by
    simp [start_recording, h]
  refine ⟨hq, ?_, fun nf => ?_⟩
  · simp [get_audio_chunk, hq]
  · rw [foldl_push_queue, hq, List.nil_append]

/-- Witness for C10: restarting with a stale frame still queued. -/
theorem C10_witness :
    (⟨false, [AudioChunk.floatChunk [1]]⟩ : AudioInputState).is_recording
        = false ∧
    (start_recording ⟨false, [AudioChunk.floatChunk [1]]⟩).audio_queue = [] ∧
    (get_audio_chunk
      (start_recording ⟨false, [AudioChunk.floatChunk [1]]⟩)).1 = none ∧
    (List.foldl push_chunk
      (start_recording ⟨false, [AudioChunk.floatChunk [1]]⟩)
      [AudioChunk.floatChunk [0.5]]).audio_queue =
        [AudioChunk.floatChunk [0.5]] := by
  have h := C10_restart_drains_queue ⟨false, [AudioChunk.floatChunk [1]]⟩ rfl
  exact ⟨rfl, h.1, h.2.1, h.2.2 [AudioChunk.floatChunk [0.5]]⟩

/-- C1 (counterexample): a session closed by the forced max-duration
cutoff is delivered to the callback even though
`lastSpeechTime - sessionStart < phraseThreshold`: under `cutoffConfig`
(pause 20 s, max 10 s, phrase 0.3 s) a single speech frame at 0.1 s
followed by a silent frame at 10.2 s triggers the cutoff and delivers
the two-frame buffer although the speech span is 0 s. -/
theorem C1_counterexample :
    (stepFrame cutoffConfig initSeg ⟨0.1, 0.8⟩).1.speech_start_time
        = some 0.1 ∧
    (stepFrame cutoffConfig initSeg ⟨0.1, 0.8⟩).1.last_speech_time
        = some 0.1 ∧
    ¬ ((0.1 : ℚ) - 0.1 ≥ cutoffConfig.phrase_threshold) ∧
    (stepFrame cutoffConfig (stepFrame cutoffConfig initSeg ⟨0.1, 0.8⟩).1
        ⟨10.2, 0⟩).2 = [[⟨0.1, 0.8⟩, ⟨10.2, 0⟩]] := by
  norm_num [stepFrame, speechStep, cutoffStep, cutoffConfig, initSeg, pyTruthy,
    List.cons_ne_nil]

/-- C1 (amended): the `phraseThreshold` acceptance filter is applied on
the pause-close path only: there, the buffer is delivered iff
`lastSpeechTime - sessionStart ≥ phraseThreshold` (otherwise the session
is discarded silently).  On the forced max-duration cutoff the
accumulated frames are always delivered, with no filter — both when the
cutoff frame is speech and when it is non-closing silence. -/
theorem C1_closing_policy (cfg : VDConfig) (s : SegState) (c : Chunk)
    (ls st : ℚ)
    (hspk : s.is_speaking = true)
    (hls : s.last_speech_time = some ls)
    (hst : s.speech_start_time = some st) :
    (c.energy ≤ cfg.energy_threshold → cfg.pause_threshold < c.time - ls →
      ((stepFrame cfg s c).2 ≠ [] ↔ cfg.phrase_threshold ≤ ls - st)) ∧
    (cfg.energy_threshold < c.energy → st ≠ 0 →
      cfg.max_phrase_time < c.time - st →
      (stepFrame cfg s c).2 = [s.collected_chunks ++ [c]]) ∧
    (c.energy ≤ cfg.energy_threshold → c.time - ls ≤ cfg.pause_threshold →
      st ≠ 0 → cfg.max_phrase_time < c.time - st →
      (stepFrame cfg s c).2 = [s.collected_chunks ++ [c]]) := by
  refine ⟨fun hE hp => ?_, fun hE hst0 hmax => ?_,
    fun hE hp hst0 hmax => ?_⟩
  · by_cases hf : cfg.phrase_threshold ≤ ls - st
    · simp [stepFrame, speechStep, cutoffStep, hspk, hls, hst,
        not_lt.mpr hE, hp, hf]
    · simp [stepFrame, speechStep, cutoffStep, hspk, hls, hst,
        not_lt.mpr hE, hp, hf]
  · simp [stepFrame, speechStep, cutoffStep, hspk, hls, hst, hE,
      pyTruthy, hst0, hmax]
  · simp [stepFrame, speechStep, cutoffStep, hspk, hls, hst,
      not_lt.mpr hE, not_lt.mpr hp, pyTruthy, hst0, hmax]

/-- Witness for C1 at a concrete open session and pause-closing frame. -/
theorem C1_witness :
    (⟨true, some 0.1, some 0.5, [⟨0.1, 0.8⟩]⟩ : SegState).is_speaking
        = true ∧
    ((⟨1.6, 0⟩ : Chunk).energy ≤ defaultConfig.energy_threshold →
      defaultConfig.pause_threshold < (⟨1.6, 0⟩ : Chunk).time - 0.5 →
      ((stepFrame defaultConfig ⟨true, some 0.1, some 0.5, [⟨0.1, 0.8⟩]⟩
          ⟨1.6, 0⟩).2 ≠ [] ↔
        defaultConfig.phrase_threshold ≤ 0.5 - 0.1)) :=
  ⟨rfl, (C1_closing_policy defaultConfig
    ⟨true, some 0.1, some 0.5, [⟨0.1, 0.8⟩]⟩ ⟨1.6, 0⟩ 0.5 0.1
    rfl rfl rfl).1⟩

set_option maxHeartbeats 1000000 in
set_option maxRecDepth 40000 in
/-- C2 (counterexample): an exception raised by the callback terminates
the detection loop: on an input holding two complete phrases, an
always-raising callback makes the loop stop at the first phrase with the
exception escaping, and the remaining frames — including the whole
second phrase, which a normally returning callback would receive — are
never processed. -/
theorem C2_counterexample :
    runLoop defaultConfig cbRaise initSeg twoPhraseInput =
      (initSeg, [], some "callback failed") ∧
    (runLoop defaultConfig cbOk initSeg twoPhraseInput).2.1.length = 2 := by
  constructor
  · norm_num [runLoop, deliver, cbRaise, stepFrame, speechStep, cutoffStep,
      defaultConfig, initSeg, pyTruthy, twoPhraseInput]
  · norm_num [runLoop, deliver, cbOk, stepFrame, speechStep, cutoffStep,
      defaultConfig, initSeg, pyTruthy, twoPhraseInput]

/-- C2 (amended): when the segmenter emits a buffer on some frame and
the callback raises on it, the exception escapes the loop (there is no
`except` clause around the `while` body): the loop returns immediately
with that error, the buffer is not recorded as delivered, and the
remaining frames are not processed. -/
theorem C2_callback_error_terminates (cfg : VDConfig)
    (cb : List Chunk → Option String) (s : SegState) (c : Chunk)
    (cs : List Chunk) (b : List Chunk) (e : String)
    (hemit : (stepFrame cfg s c).2 = [b]) (herr : cb b = some e) :
    runLoop cfg cb s (c :: cs) = ((stepFrame cfg s c).1, [], some e) := by
  simp [runLoop, deliver, hemit, herr]

/-- Witness for C2 at a concrete open session, pause-closing frame and
raising callback. -/
theorem C2_witness :
    (stepFrame defaultConfig ⟨true, some 0.1, some 0.5, [⟨0.1, 0.8⟩]⟩
        ⟨1.6, 0⟩).2 = [[⟨0.1, 0.8⟩, ⟨1.6, 0⟩]] ∧
    cbRaise [⟨0.1, 0.8⟩, ⟨1.6, 0⟩] = some "callback failed" ∧
    runLoop defaultConfig cbRaise ⟨true, some 0.1, some 0.5, [⟨0.1, 0.8⟩]⟩
        [⟨1.6, 0⟩, ⟨2.0, 0.8⟩] =
      ((stepFrame defaultConfig ⟨true, some 0.1, some 0.5, [⟨0.1, 0.8⟩]⟩
          ⟨1.6, 0⟩).1, [], some "callback failed") := by
  have hemit : (stepFrame defaultConfig
      ⟨true, some 0.1, some 0.5, [⟨0.1, 0.8⟩]⟩ ⟨1.6, 0⟩).2 =
        [[⟨0.1, 0.8⟩, ⟨1.6, 0⟩]] := by
    norm_num [stepFrame, speechStep, cutoffStep, defaultConfig, pyTruthy,
      List.cons_ne_nil]
  exact ⟨hemit, rfl,
    C2_callback_error_terminates defaultConfig cbRaise
      ⟨true, some 0.1, some 0.5, [⟨0.1, 0.8⟩]⟩ ⟨1.6, 0⟩ [⟨2.0, 0.8⟩]
      [⟨0.1, 0.8⟩, ⟨1.6, 0⟩] "callback failed" hemit rfl⟩

/-- C4 (counterexample): the energy of the int16 frame holding the
single sample `-32768` is `32768/32767 > 1`: integer frames are divided
by `iinfo.max = 32767` although the most negative sample has magnitude
32768, so the result can leave [0, 1]. -/
theorem C4_counterexample :
    calculate_energy (some (AudioChunk.intChunk [-32768])) = 32768 / 32767 ∧
    ¬ calculate_energy (some (AudioChunk.intChunk [-32768])) ≤ 1 := by
  have habs : |((-32768 : ℤ) : ℚ)| = 32768 := by
    rw [show ((-32768 : ℤ) : ℚ) = -32768 by push_cast; ring]
    rw [abs_neg, abs_of_nonneg (by norm_num)]
  constructor
  · simp [calculate_energy, int16_max, habs]
  · simp [calculate_energy, int16_max, habs]
    norm_num

/-- C4 (amended): the energy is 0 for an absent or empty frame, is the
mean absolute amplitude divided by `iinfo.max` for int16 frames and the
plain mean absolute amplitude for float frames, and is always
nonnegative and at most `32768/32767`; it lies in [0, 1] whenever no
int16 sample equals the most negative value `-32768` (for float frames
in [-1, 1] always). -/
theorem C4_energy_range (c : AudioChunk) (hv : validChunk c) :
    calculate_energy none = 0 ∧
    0 ≤ calculate_energy (some c) ∧
    calculate_energy (some c) ≤ 32768 / 32767 ∧
    (noMinSample c → calculate_energy (some c) ≤ 1) := by
  refine ⟨rfl, ?_, ?_, ?_⟩
  · -- nonnegativity
    rcases c with ss | ss
    · by_cases h0 : ss.length = 0
      · simp [calculate_energy, h0]
      · have := mean_nonneg (ss.map (fun v : ℤ => (|v| : ℚ) / int16_max))
          (by rintro x hx
              rcases List.mem_map.mp hx with ⟨v, _, rfl⟩
              have h1 : (0 : ℚ) ≤ (|v| : ℚ) := by exact_mod_cast abs_nonneg v
              have h2 : (0 : ℚ) ≤ int16_max := by rw [int16_max]; norm_num
              exact div_nonneg h1 h2)
        simpa [calculate_energy, h0, List.length_map] using this
    · by_cases h0 : ss.length = 0
      · simp [calculate_energy, h0]
      · have := mean_nonneg (ss.map (fun v : ℚ => |v|))
          (by rintro x hx
              rcases List.mem_map.mp hx with ⟨v, _, rfl⟩
              exact abs_nonneg v)
        simpa [calculate_energy, h0, List.length_map] using this
  · -- upper bound 32768/32767
    rcases c with ss | ss
    · by_cases h0 : ss.length = 0
      · norm_num [calculate_energy, h0]
      · have hv' : ∀ v ∈ ss, -32768 ≤ v ∧ v ≤ 32767 := hv
        have := mean_le (ss.map (fun v : ℤ => (|v| : ℚ) / int16_max))
          (32768 / 32767) (by norm_num)
          (by rintro x hx
              rcases List.mem_map.mp hx with ⟨v, hvmem, rfl⟩
              have hb := hv' v hvmem
              have habs : |v| ≤ (32768 : ℤ) :=
                abs_le.mpr ⟨hb.1, le_trans hb.2 (by norm_num)⟩
              have habsq : (|v| : ℚ) ≤ 32768 := by exact_mod_cast habs
              rw [int16_max]
              gcongr)
        simpa [calculate_energy, h0, List.length_map] using this
    · by_cases h0 : ss.length = 0
      · norm_num [calculate_energy, h0]
      · have hv' : ∀ v ∈ ss, -1 ≤ v ∧ v ≤ 1 := hv
        have h1 := mean_le (ss.map (fun v : ℚ => |v|)) 1 (by norm_num)
          (by rintro x hx
              rcases List.mem_map.mp hx with ⟨v, hvmem, rfl⟩
              exact abs_le.mpr (hv' v hvmem))
        have hle := le_trans h1 (by norm_num : (1 : ℚ) ≤ 32768 / 32767)
        simpa [calculate_energy, h0, List.length_map] using hle
  · -- within [0,1] when the minimum sample is avoided
    intro hmin
    rcases c with ss | ss
    · by_cases h0 : ss.length = 0
      · simp [calculate_energy, h0]
      · have hv' : ∀ v ∈ ss, -32768 ≤ v ∧ v ≤ 32767 := hv
        have hmin' : ∀ v ∈ ss, -32767 ≤ v := hmin
        have := mean_le (ss.map (fun v : ℤ => (|v| : ℚ) / int16_max)) 1
          (by norm_num)
          (by rintro x hx
              rcases List.mem_map.mp hx with ⟨v, hvmem, rfl⟩
              have habs : |v| ≤ (32767 : ℤ) :=
                abs_le.mpr ⟨hmin' v hvmem, (hv' v hvmem).2⟩
              have habsq : (|v| : ℚ) ≤ 32767 := by exact_mod_cast habs
              rw [int16_max, div_le_one (by norm_num)]
              exact habsq)
        simpa [calculate_energy, h0, List.length_map] using this
    · by_cases h0 : ss.length = 0
      · simp [calculate_energy, h0]
      · have hv' : ∀ v ∈ ss, -1 ≤ v ∧ v ≤ 1 := hv
        have := mean_le (ss.map (fun v : ℚ => |v|)) 1 (by norm_num)
          (by rintro x hx
              rcases List.mem_map.mp hx with ⟨v, hvmem, rfl⟩
              exact abs_le.mpr (hv' v hvmem))
        simpa [calculate_energy, h0, List.length_map] using this

/-- Witness for C4 at a concrete valid int16 frame avoiding `-32768`. -/
theorem C4_witness :
    validChunk (AudioChunk.intChunk [100, -200]) ∧
    noMinSample (AudioChunk.intChunk [100, -200]) ∧
    0 ≤ calculate_energy (some (AudioChunk.intChunk [100, -200])) ∧
    calculate_energy (some (AudioChunk.intChunk [100, -200])) ≤ 1 := by
  have hv : validChunk (AudioChunk.intChunk [100, -200]) := by
    intro v hv
    fin_cases hv <;> norm_num
  have hm : noMinSample (AudioChunk.intChunk [100, -200]) := by
    intro v hv
    fin_cases hv <;> norm_num
  have h := C4_energy_range (AudioChunk.intChunk [100, -200]) hv
  exact ⟨hv, hm, h.2.1, h.2.2.2 hm⟩

/-- C5: with at least one frame observed, calibration sets the threshold
to `min(cap, mean(energies) * 1.1)` with cap `0.2` and succeeds; with no
frame observed, the threshold keeps its prior value and calibration
reports failure without raising. -/
theorem C5_calibration_update (prev : ℚ) (received : List AudioChunk) :
    (received ≠ [] →
      adjust_for_ambient_noise prev received =
        (min threshold_cap
          ((received.map (fun c => calculate_energy (some c))).sum /
            (received.map (fun c => calculate_energy (some c))).length * 1.1),
         true)) ∧
    (received = [] →
      adjust_for_ambient_noise prev received = (prev, false)) := by
  constructor
  · intro h
    simp [adjust_for_ambient_noise, h]
  · intro h
    subst h
    rfl

/-- Witness for C5 at one observed frame (where the cap binds) and at
the empty window. -/
theorem C5_witness :
    adjust_for_ambient_noise 0.05 [AudioChunk.floatChunk [0.5]]
      = (0.2, true) ∧
    adjust_for_ambient_noise 0.05 [] = (0.05, false) := by
  refine ⟨?_, (C5_calibration_update 0.05 []).2 rfl⟩
  rw [(C5_calibration_update 0.05 [AudioChunk.floatChunk [0.5]]).1
    (by simp)]
  have habs : |(1 / 2 : ℚ)| = 1 / 2 := abs_of_nonneg (by norm_num)
  norm_num [calculate_energy, threshold_cap, habs, min_def]

end VoiceDetect
